import Mathlib

/-!
Verification of the within-host viral dynamics model (`main_fig.py`).

The development shallowly embeds the numerical core of the source:
the two production-rate policies (`production_rate_step`,
`production_rate_tanh`), the `Model` configuration record, and
`Model.simulate`, which builds the ODE right-hand side, delegates to an
external integration collaborator, and post-processes the virus-load
trajectory (detection-limit clipping followed by a log10 transform).
Machine floats are modelled by real numbers; Python exceptions are
modelled by `Except`; an unbound local variable in the right-hand side
is modelled by `Option`.  The external `scipy.integrate.solve_ivp`
collaborator is not part of the repository: it is abstracted as an
`Integrator` argument, and the properties the specification assigns to
it are stated as explicit contract predicates.
-/

noncomputable section

namespace WithinHost

/-- Step function production rate, `p`, translated from
`production_rate_step` in `main_fig.py`: `p0` before treatment time,
`p0 * (1 - epsilon)` from treatment time on. -/
def production_rate_step (t t_treat p0 epsilon : ℝ) : ℝ :=
  if t < t_treat then p0 else p0 * (1.0 - epsilon)

/-- Hyperbolic tangent production rate, translated from
`production_rate_tanh` in `main_fig.py`. -/
def production_rate_tanh (t t_treat T_max p0 epsilon : ℝ) : ℝ :=
  -(p0 * epsilon / 2) * Real.tanh ((t - (t_treat + 0.5 * T_max)) / (0.25 * T_max))
    + p0 - (p0 * epsilon / 2)

/-- Model configuration, translated from `Model.__init__` in
`main_fig.py`: initial condition, solver method name, optional step
size, optional tolerance, treatment time, production-rate policy tag,
and the detection-limit flag. -/
structure Model where
  y0 : ℝ × ℝ × ℝ
  solver : String
  step_size : Option ℝ
  tolerance : Option ℝ
  t_treat : ℝ
  p_fn : String
  limit_of_quant : Bool

/-- Translation of `Model.set_step_size`: replaces the stored step size. -/
def Model.set_step_size (m : Model) (step_size : Option ℝ) : Model :=
  ⟨m.y0, m.solver, step_size, m.tolerance, m.t_treat, m.p_fn, m.limit_of_quant⟩

/-- Translation of `Model.set_tolerance`: replaces the stored tolerance. -/
def Model.set_tolerance (m : Model) (tolerance : Option ℝ) : Model :=
  ⟨m.y0, m.solver, m.step_size, tolerance, m.t_treat, m.p_fn, m.limit_of_quant⟩

/-- Translation of `Model.n_parameters`. -/
def Model.n_parameters (_ : Model) : ℕ := 5

/-- Production-rate dispatch inside the local function `fun` of
`Model.simulate`: the `"Step"` branch reads the model's configured
`t_treat`, the `"Tanh"` branch re-binds local constants
`t_treat = 2.775` and `T_max = 1.08/24`, and any other tag leaves the
local variable `p` unbound, modelled by `none`. -/
def Model.prodRate (m : Model) (p0 epsilon t : ℝ) : Option ℝ :=
  if m.p_fn = "Step" then some (production_rate_step t m.t_treat p0 epsilon)
  else if m.p_fn = "Tanh" then
    some (production_rate_tanh t 2.775 (1.08 / 24) p0 epsilon)
  else none

/-- The ODE right-hand side built by `Model.simulate` (the local
function `fun(t, y)`): `dT = -beta*T*V`, `dI = beta*T*V - delta*I`,
`dV = p*I - c*V`.  Evaluation fails (`none`, modelling the `NameError`
of the source) when no production-rate branch applies. -/
def Model.simFun (m : Model) (beta delta p0 c epsilon : ℝ)
    (t : ℝ) (y : ℝ × ℝ × ℝ) : Option (ℝ × ℝ × ℝ) :=
  match m.prodRate p0 epsilon t with
  | some p =>
      some ⟨-beta * y.1 * y.2.2,
            beta * y.1 * y.2.2 - delta * y.2.1,
            p * y.2.1 - c * y.2.2⟩
  | none => none

/-- Modelled from the spec: the type of the external ODE integration
collaborator (`scipy.integrate.solve_ivp`, out of scope per §1/§6 of the
specification).  Arguments mirror the call in `Model.simulate`: the
right-hand side, the time span `(0, max(times))`, the initial state, the
evaluation times, the method name, `rtol`, `atol`, and the extraneous
`step_size` keyword.  It returns either an error message or a state
trajectory. -/
def Integrator : Type :=
  (ℝ → ℝ × ℝ × ℝ → Option (ℝ × ℝ × ℝ)) → (ℝ × ℝ) → (ℝ × ℝ × ℝ) →
    List ℝ → String → Option ℝ → Option ℝ → Option ℝ →
    Except String (List (ℝ × ℝ × ℝ))

/-- Fixed detection floor of the source, `10**(0.7)`. -/
def quantLimit : ℝ := (10 : ℝ) ^ (0.7 : ℝ)

/-- State-passing translation of `Model.simulate`: unpack the five
parameters (a length mismatch raises, as in Python tuple unpacking),
form the range `(0, max(times))` (`max` raises on an empty sequence),
delegate to the integration collaborator, extract the virus-load
component `res.y[2]`, clip below `10**0.7` when `limit_of_quant` is
true, and return the `log10` of the result.  The second component is
the model state after the call; the body of `simulate` assigns to no
attribute of `self`, so it is `m` itself. -/
def Model.simulateS (m : Model) (integ : Integrator)
    (parameters times : List ℝ) : Except String (List ℝ) × Model :=
  (match parameters with
   | [beta, delta, p0, c, epsilon] =>
     match times.max? with
     | none => Except.error "max() arg is an empty sequence"
     | some tmax =>
       match integ (m.simFun beta delta p0 c epsilon) (0, tmax) m.y0
           times m.solver m.tolerance m.tolerance m.step_size with
       | Except.error msg => Except.error msg
       | Except.ok traj =>
         let y := traj.map (fun s => s.2.2)
         let yc := if m.limit_of_quant then
             y.map (fun v => if v < quantLimit then quantLimit else v)
           else y
         Except.ok (yc.map (fun v => Real.logb 10 v))
   | _ =>
     Except.error
       (if parameters.length < 5 then
          "not enough values to unpack (expected 5, got " ++
            toString parameters.length ++ ")"
        else "too many values to unpack (expected 5)"), m)

/-- Translation of `Model.simulate`, the returned value of the call. -/
def Model.simulate (m : Model) (integ : Integrator)
    (parameters times : List ℝ) : Except String (List ℝ) :=
  (m.simulateS integ parameters times).1

/-- Modelled from the spec: §6 requires the integration collaborator to
"return states sampled exactly at `eval_times`", so a successful
trajectory has one state per requested time point. -/
def SamplesExactly (integ : Integrator) : Prop :=
  ∀ f tr y0 te s rt atol ss traj,
    integ f tr y0 te s rt atol ss = Except.ok traj → traj.length = te.length

/-- Modelled from the spec: §7 requires an unsorted time grid to fail
with an `InvalidArgument` error; the collaborator rejects an evaluation
grid that is not sorted in strictly ascending order. -/
def RejectsUnsortedGrid (integ : Integrator) : Prop :=
  ∀ f tr y0 te s rt atol ss, ¬ List.Sorted (· < ·) te →
    ∃ msg, integ f tr y0 te s rt atol ss = Except.error msg

/-- Modelled from the spec: the collaborator evaluates the supplied
right-hand side during integration, starting from the initial state at
the left end of the time span; a right-hand-side evaluation failure (an
exception in the source) surfaces as an integration error. -/
def PropagatesRhsFailure (integ : Integrator) : Prop :=
  ∀ f tr y0 te s rt atol ss, f tr.1 y0 = none →
    ∃ msg, integ f tr y0 te s rt atol ss = Except.error msg

/-- Integration stub for concrete evaluations: always succeeds and
returns the initial state at every requested time. -/
def integConst : Integrator :=
  fun _ _ y0 te _ _ _ _ => Except.ok (te.map fun _ => y0)

/-- Integration stub that rejects evaluation grids not sorted in
strictly ascending order, as `solve_ivp` does. -/
def integSortCheck : Integrator :=
  fun _ _ y0 te _ _ _ _ =>
    if List.Sorted (· < ·) te then Except.ok (te.map fun _ => y0)
    else Except.error "Values in t_eval are not properly sorted."

/-- Integration stub that evaluates the right-hand side at the initial
point and fails when that evaluation fails, as the first step of
`solve_ivp` does with a raising right-hand side. -/
def integCallRhs : Integrator :=
  fun f tr y0 te _ _ _ _ =>
    match f tr.1 y0 with
    | none => Except.error "name p is not defined"
    | some _ => Except.ok (te.map fun _ => y0)

/-- Concrete model with the tanh policy and the paper's treatment time. -/
def mTanhA : Model := ⟨(1, 1, 1), "RK45", none, some 0.001, 2.775, "Tanh", false⟩

/-- Concrete model identical to `mTanhA` except for its configured
treatment time. -/
def mTanhB : Model := ⟨(1, 1, 1), "RK45", none, some 0.001, 99, "Tanh", false⟩

/-- Concrete model with the step policy and the detection limit on. -/
def mStep : Model := ⟨(0, 0, 1), "RK45", none, some 0.001, 2.775, "Step", true⟩

/-- Concrete model with an unrecognised production-rate tag. -/
def mLinear : Model := ⟨(0, 0, 1), "RK45", none, some 0.001, 2.775, "Linear", true⟩

/-- C4: the step production rate is `p0` strictly before `t_treat` and
`p0 * (1 - epsilon)` at and after `t_treat`. -/
theorem production_rate_step_cases (t t_treat p0 epsilon : ℝ) :
    (t < t_treat → production_rate_step t t_treat p0 epsilon = p0) ∧
    (t_treat ≤ t →
      production_rate_step t t_treat p0 epsilon = p0 * (1 - epsilon)) := by
  constructor
  · intro h
    simp [production_rate_step, h]
  · intro h
    rw [production_rate_step, if_neg (not_lt.mpr h)]
    norm_num

/-- C4 witness: the step production rate evaluated on concrete inputs on
both sides of the treatment time. -/
theorem production_rate_step_cases_witness :
    production_rate_step 1 2 3 (1 / 2) = 3 ∧
    production_rate_step 5 2 3 (1 / 2) = 3 * (1 - 1 / 2) :=
  ⟨(production_rate_step_cases 1 2 3 (1 / 2)).1 (by norm_num),
   (production_rate_step_cases 5 2 3 (1 / 2)).2 (by norm_num)⟩

/-- C5: the tanh production rate equals
`p0 - (p0*epsilon/2) * (1 + tanh((t - (t_treat + 0.5*T_max)) / (0.25*T_max)))`,
and at the midpoint `t = t_treat + 0.5*T_max` it equals
`p0 * (1 - epsilon/2)`. -/
theorem production_rate_tanh_closed_form (t t_treat T_max p0 epsilon : ℝ) :
    production_rate_tanh t t_treat T_max p0 epsilon =
      p0 - (p0 * epsilon / 2) *
        (1 + Real.tanh ((t - (t_treat + 0.5 * T_max)) / (0.25 * T_max))) ∧
    production_rate_tanh (t_treat + 0.5 * T_max) t_treat T_max p0 epsilon =
      p0 * (1 - epsilon / 2) := by
  constructor
  · unfold production_rate_tanh
    ring
  · unfold production_rate_tanh
    rw [show t_treat + 0.5 * T_max - (t_treat + 0.5 * T_max) = 0 by ring,
        zero_div, Real.tanh_zero]
    ring

/-- C6: with `epsilon = 0`, both production-rate policies return exactly
`p0`, for every time and every remaining argument. -/
theorem production_rate_placebo (t t_treat T_max p0 : ℝ) :
    production_rate_step t t_treat p0 0 = p0 ∧
    production_rate_tanh t t_treat T_max p0 0 = p0 := by
  constructor
  · unfold production_rate_step
    split <;> ring
  · unfold production_rate_tanh
    ring

theorem quantLimit_pos : (0 : ℝ) < quantLimit :=
  Real.rpow_pos_of_pos (by norm_num) _

theorem one_lt_quantLimit : (1 : ℝ) < quantLimit :=
  (Real.one_lt_rpow_iff_of_pos (by norm_num)).mpr (Or.inl ⟨by norm_num, by norm_num⟩)

theorem logb_quantLimit : Real.logb 10 quantLimit = 0.7 :=
  Real.logb_rpow (by norm_num) (by norm_num)

theorem clipped_logb_ge (v : ℝ) :
    (0.7 : ℝ) ≤ Real.logb 10 (if v < quantLimit then quantLimit else v) := by
  split
  · rw [logb_quantLimit]
  · rename_i h
    rw [← logb_quantLimit]
    exact Real.logb_le_logb_of_le (by norm_num) quantLimit_pos (not_lt.mp h)

theorem integConst_samples : SamplesExactly integConst := by
  intro f tr y0 te s rt atol ss traj h
  simp only [integConst, Except.ok.injEq] at h
  rw [← h, List.length_map]

theorem integSortCheck_rejects : RejectsUnsortedGrid integSortCheck := by
  intro f tr y0 te s rt atol ss h
  unfold integSortCheck
  rw [if_neg h]
  exact ⟨_, rfl⟩

theorem integCallRhs_propagates : PropagatesRhsFailure integCallRhs := by
  intro f tr y0 te s rt atol ss h
  unfold integCallRhs
  rw [h]
  exact ⟨_, rfl⟩

theorem simulate_five (m : Model) (integ : Integrator)
    (beta delta p0 c epsilon tmax : ℝ) (times : List ℝ)
    (hmax : times.max? = some tmax) :
    m.simulate integ [beta, delta, p0, c, epsilon] times =
      (match integ (m.simFun beta delta p0 c epsilon) (0, tmax) m.y0 times
          m.solver m.tolerance m.tolerance m.step_size with
       | Except.error msg => Except.error msg
       | Except.ok traj =>
         Except.ok ((if m.limit_of_quant then
             (traj.map fun s => s.2.2).map
               (fun v => if v < quantLimit then quantLimit else v)
           else traj.map fun s => s.2.2).map fun v => Real.logb 10 v)) := by
  unfold Model.simulate Model.simulateS
  rw [hmax]

theorem simulate_not_five (m : Model) (integ : Integrator)
    (parameters times : List ℝ) (h : parameters.length ≠ 5) :
    m.simulate integ parameters times =
      Except.error
        (if parameters.length < 5 then
           "not enough values to unpack (expected 5, got " ++
             toString parameters.length ++ ")"
         else "too many values to unpack (expected 5)") := by
  rcases parameters with _ | ⟨a, _ | ⟨b, _ | ⟨c, _ | ⟨d, _ | ⟨e, _ | ⟨f, l⟩⟩⟩⟩⟩⟩ <;>
    first
      | rfl
      | exact absurd rfl h

theorem prodRate_tanh_branch (m : Model) (hm : m.p_fn = "Tanh")
    (p0 epsilon t : ℝ) :
    m.prodRate p0 epsilon t =
      some (production_rate_tanh t 2.775 (1.08 / 24) p0 epsilon) := by
  unfold Model.prodRate
  rw [hm]
  rfl

/-- C1: with the `"Tanh"` policy the right-hand side evaluates the
production rate at the hard-coded local constants `t_treat = 2.775` and
`T_max = 1.08/24`, never at the model's configured `t_treat`; hence two
models identical except for their configured `t_treat` produce identical
`simulate` output on the same parameters and times. -/
theorem tanh_branch_ignores_configured_t_treat (integ : Integrator)
    (m₁ m₂ : Model) (h₁ : m₁.p_fn = "Tanh") (h₂ : m₂.p_fn = "Tanh")
    (hy : m₁.y0 = m₂.y0) (hsol : m₁.solver = m₂.solver)
    (hss : m₁.step_size = m₂.step_size) (htol : m₁.tolerance = m₂.tolerance)
    (hloq : m₁.limit_of_quant = m₂.limit_of_quant)
    (parameters times : List ℝ) :
    (∀ p0 epsilon t, m₁.prodRate p0 epsilon t =
        some (production_rate_tanh t 2.775 (1.08 / 24) p0 epsilon)) ∧
    m₁.simulate integ parameters times = m₂.simulate integ parameters times := by
  have hsf : ∀ beta delta p0 c epsilon,
      m₁.simFun beta delta p0 c epsilon = m₂.simFun beta delta p0 c epsilon := by
    intro beta delta p0 c epsilon
    funext t y
    unfold Model.simFun
    rw [prodRate_tanh_branch m₁ h₁, prodRate_tanh_branch m₂ h₂]
  refine ⟨prodRate_tanh_branch m₁ h₁, ?_⟩
  rcases h5 : parameters with _ | ⟨beta, _ | ⟨delta, _ | ⟨p0, _ | ⟨c, _ |
      ⟨epsilon, _ | ⟨f, l⟩⟩⟩⟩⟩⟩
  case cons.cons.cons.cons.cons.nil =>
    cases hmx : times.max? with
    | none =>
      unfold Model.simulate Model.simulateS
      rw [hmx]
    | some tmax =>
      rw [simulate_five m₁ integ beta delta p0 c epsilon tmax times hmx,
          simulate_five m₂ integ beta delta p0 c epsilon tmax times hmx,
          hsf, hy, hsol, hss, htol, hloq]
  all_goals
    rw [simulate_not_five m₁ integ _ times (by simp),
        simulate_not_five m₂ integ _ times (by simp)]

/-- C1 witness: two concrete tanh-policy models whose configured
treatment times differ (2.775 versus 99) give identical simulate
output. -/
theorem tanh_branch_ignores_t_treat_witness :
    mTanhA.simulate integConst [1, 1, 1, 1, 1] [1] =
      mTanhB.simulate integConst [1, 1, 1, 1, 1] [1] :=
  (tanh_branch_ignores_configured_t_treat integConst mTanhA mTanhB rfl rfl
    rfl rfl rfl rfl rfl [1, 1, 1, 1, 1] [1]).2

/-- C2: when the integration collaborator fails, `simulate` fails with
the collaborator's error message; when it succeeds (sampling exactly at
the requested times, per the collaborator contract), `simulate` returns
a sequence whose length equals the length of `times`. -/
theorem simulate_error_or_full_length (integ : Integrator)
    (hs : SamplesExactly integ) (m : Model)
    (beta delta p0 c epsilon tmax : ℝ) (times : List ℝ)
    (hmax : times.max? = some tmax) :
    (∀ msg, integ (m.simFun beta delta p0 c epsilon) (0, tmax) m.y0 times
        m.solver m.tolerance m.tolerance m.step_size = Except.error msg →
      m.simulate integ [beta, delta, p0, c, epsilon] times =
        Except.error msg) ∧
    (∀ traj, integ (m.simFun beta delta p0 c epsilon) (0, tmax) m.y0 times
        m.solver m.tolerance m.tolerance m.step_size = Except.ok traj →
      ∃ out, m.simulate integ [beta, delta, p0, c, epsilon] times =
        Except.ok out ∧ out.length = times.length) := by
  constructor
  · intro msg h
    rw [simulate_five m integ beta delta p0 c epsilon tmax times hmax, h]
  · intro traj h
    rw [simulate_five m integ beta delta p0 c epsilon tmax times hmax, h]
    refine ⟨_, rfl, ?_⟩
    have hlen := hs _ _ _ _ _ _ _ _ _ h
    rw [List.length_map]
    split
    · rw [List.length_map, List.length_map, hlen]
    · rw [List.length_map, hlen]

/-- C2 witness: a concrete successful run returns exactly one value for
the one requested time. -/
theorem simulate_error_or_full_length_witness :
    ∃ out, mStep.simulate integConst [1, 2, 3, 4, 5] [1] = Except.ok out ∧
      out.length = ([1] : List ℝ).length :=
  (simulate_error_or_full_length integConst integConst_samples mStep
    1 2 3 4 5 1 [1] rfl).2 _ rfl

/-- C3: with the detection limit enabled, every element of a successful
`simulate` result is at least `0.7`: virus loads are clipped up to
`10^0.7` elementwise before the `log10` transform. -/
theorem simulate_detection_limit (integ : Integrator) (m : Model)
    (hloq : m.limit_of_quant = true) (parameters times : List ℝ)
    (out : List ℝ)
    (hok : m.simulate integ parameters times = Except.ok out) :
    ∀ x ∈ out, (0.7 : ℝ) ≤ x := by
  rcases h5 : parameters with _ | ⟨beta, _ | ⟨delta, _ | ⟨p0, _ | ⟨c, _ |
      ⟨epsilon, _ | ⟨f, l⟩⟩⟩⟩⟩⟩
  case cons.cons.cons.cons.cons.nil =>
    subst h5
    cases hmx : times.max? with
    | none =>
      unfold Model.simulate Model.simulateS at hok
      rw [hmx] at hok
      exact absurd hok (by simp)
    | some tmax =>
      rw [simulate_five m integ beta delta p0 c epsilon tmax times hmx] at hok
      cases hI : integ (m.simFun beta delta p0 c epsilon) (0, tmax) m.y0 times
          m.solver m.tolerance m.tolerance m.step_size with
      | error msg =>
        rw [hI] at hok
        exact absurd hok (by simp)
      | ok traj =>
        rw [hI, hloq] at hok
        simp only [if_true, Except.ok.injEq] at hok
        subst hok
        intro x hx
        rw [List.mem_map] at hx
        obtain ⟨w, hw, rfl⟩ := hx
        rw [List.mem_map] at hw
        obtain ⟨v, _, rfl⟩ := hw
        exact clipped_logb_ge v
  all_goals
    subst h5
    rw [simulate_not_five m integ _ times (by simp)] at hok
    exact absurd hok (by simp)

/-- C3 witness: a concrete run with the detection limit on, whose raw
virus load 1 lies below the floor, yields the value
`log10(10^0.7) = 0.7`, which is at least `0.7`. -/
theorem simulate_detection_limit_witness :
    (0.7 : ℝ) ≤ Real.logb 10 quantLimit := by
  have h : mStep.simulate integConst [1, 2, 3, 4, 5] [1] =
      Except.ok [Real.logb 10 quantLimit] := by
    rw [simulate_five mStep integConst 1 2 3 4 5 1 [1] rfl]
    show Except.ok _ = _
    simp [mStep, one_lt_quantLimit]
  exact simulate_detection_limit integConst mStep rfl [1, 2, 3, 4, 5] [1]
    [Real.logb 10 quantLimit] h (Real.logb 10 quantLimit) (by simp)

/-- C7: a parameter list whose length is not 5 makes `simulate` fail
with the Python unpacking error naming the expected count 5, and
`n_parameters` returns the constant 5. -/
theorem simulate_wrong_param_count (integ : Integrator) (m : Model)
    (parameters times : List ℝ) (h : parameters.length ≠ 5) :
    (parameters.length < 5 →
      m.simulate integ parameters times =
        Except.error ("not enough values to unpack (expected 5, got " ++
          toString parameters.length ++ ")")) ∧
    (5 < parameters.length →
      m.simulate integ parameters times =
        Except.error "too many values to unpack (expected 5)") ∧
    m.n_parameters = 5 := by
  refine ⟨?_, ?_, rfl⟩
  · intro hlt
    rw [simulate_not_five m integ parameters times h, if_pos hlt]
  · intro hgt
    rw [simulate_not_five m integ parameters times h, if_neg (by omega)]

/-- C7 witness: a three-element parameter list fails with the unpacking
error naming the count. -/
theorem simulate_wrong_param_count_witness :
    mStep.simulate integConst [1, 2, 3] [1] =
      Except.error ("not enough values to unpack (expected 5, got " ++
        toString (([1, 2, 3] : List ℝ).length) ++ ")") :=
  (simulate_wrong_param_count integConst mStep [1, 2, 3] [1] (by simp)).1
    (by simp)

/-- C8: with an empty time grid `max(times)` fails, and with a time grid
not sorted in ascending order the integration collaborator rejects the
grid, so `simulate` fails with an error rather than returning a
result. -/
theorem simulate_bad_time_grid_fails (integ : Integrator)
    (hrej : RejectsUnsortedGrid integ) (m : Model)
    (parameters times : List ℝ)
    (h : times = [] ∨ ¬ List.Sorted (· < ·) times) :
    ∃ msg, m.simulate integ parameters times = Except.error msg := by
  rcases hp : parameters with _ | ⟨beta, _ | ⟨delta, _ | ⟨p0, _ | ⟨c, _ |
      ⟨epsilon, _ | ⟨f, l⟩⟩⟩⟩⟩⟩
  case cons.cons.cons.cons.cons.nil =>
    rcases h with rfl | hsort
    · exact ⟨_, rfl⟩
    · cases hmx : times.max? with
      | none =>
        refine ⟨"max() arg is an empty sequence", ?_⟩
        unfold Model.simulate Model.simulateS
        rw [hmx]
      | some tmax =>
        obtain ⟨msg, hmsg⟩ := hrej (m.simFun beta delta p0 c epsilon)
          (0, tmax) m.y0 times m.solver m.tolerance m.tolerance
          m.step_size hsort
        exact ⟨msg, by
          rw [simulate_five m integ beta delta p0 c epsilon tmax times hmx,
            hmsg]⟩
  all_goals
    exact ⟨_, simulate_not_five m integ _ times (by simp)⟩

/-- C8 witness: the empty grid and the descending grid `[1, 0]` both
fail on a sortedness-checking integrator. -/
theorem simulate_bad_time_grid_fails_witness :
    (∃ msg, mStep.simulate integSortCheck [1, 2, 3, 4, 5] [] =
      Except.error msg) ∧
    (∃ msg, mStep.simulate integSortCheck [1, 2, 3, 4, 5] [1, 0] =
      Except.error msg) :=
  ⟨simulate_bad_time_grid_fails integSortCheck integSortCheck_rejects mStep
     [1, 2, 3, 4, 5] [] (Or.inl rfl),
   simulate_bad_time_grid_fails integSortCheck integSortCheck_rejects mStep
     [1, 2, 3, 4, 5] [1, 0] (Or.inr (by
       intro hs
       have h10 := (List.sorted_cons.mp hs).1 0 (List.mem_singleton.mpr rfl)
       norm_num at h10))⟩

/-- C9: `simulate` mutates no stored model field — the post-call model
state equals the pre-call state field by field (`y0`, `solver`,
`step_size`, `tolerance`, `t_treat`, `p_fn`, `limit_of_quant`) — and a
second call on the post-call state with identical parameters and times
returns the identical output. -/
theorem simulate_pure_and_deterministic (integ : Integrator) (m : Model)
    (parameters times : List ℝ) :
    ((m.simulateS integ parameters times).2.y0 = m.y0 ∧
     (m.simulateS integ parameters times).2.solver = m.solver ∧
     (m.simulateS integ parameters times).2.step_size = m.step_size ∧
     (m.simulateS integ parameters times).2.tolerance = m.tolerance ∧
     (m.simulateS integ parameters times).2.t_treat = m.t_treat ∧
     (m.simulateS integ parameters times).2.p_fn = m.p_fn ∧
     (m.simulateS integ parameters times).2.limit_of_quant =
       m.limit_of_quant) ∧
    ((m.simulateS integ parameters times).2.simulateS integ
        parameters times).1 =
      (m.simulateS integ parameters times).1 :=
  ⟨⟨rfl, rfl, rfl, rfl, rfl, rfl, rfl⟩, rfl⟩

theorem prodRate_unknown_none (m : Model) (h1 : m.p_fn ≠ "Step")
    (h2 : m.p_fn ≠ "Tanh") (p0 epsilon t : ℝ) :
    m.prodRate p0 epsilon t = none := by
  unfold Model.prodRate
  rw [if_neg h1, if_neg h2]

/-- C10: with a production-rate tag other than "Step" or "Tanh", the
right-hand side never binds the production rate `p` (its evaluation
yields `none`, modelling the unbound-variable error of the source), so
every `simulate` call with a valid parameter list and non-empty time
grid fails, given that the collaborator evaluates the right-hand
side. -/
theorem simulate_unknown_policy_fails (integ : Integrator)
    (hprop : PropagatesRhsFailure integ) (m : Model)
    (h1 : m.p_fn ≠ "Step") (h2 : m.p_fn ≠ "Tanh")
    (beta delta p0 c epsilon : ℝ) (times : List ℝ) (hne : times ≠ []) :
    (∀ t y, m.simFun beta delta p0 c epsilon t y = none) ∧
    ∃ msg, m.simulate integ [beta, delta, p0, c, epsilon] times =
      Except.error msg := by
  have hsf : ∀ t y, m.simFun beta delta p0 c epsilon t y = none := by
    intro t y
    unfold Model.simFun
    rw [prodRate_unknown_none m h1 h2]
  refine ⟨hsf, ?_⟩
  cases times with
  | nil => exact absurd rfl hne
  | cons a l =>
    obtain ⟨msg, hmsg⟩ := hprop (m.simFun beta delta p0 c epsilon)
      (0, l.foldl max a) m.y0 (a :: l) m.solver m.tolerance m.tolerance
      m.step_size (hsf 0 m.y0)
    exact ⟨msg, by
      rw [simulate_five m integ beta delta p0 c epsilon (l.foldl max a)
        (a :: l) rfl, hmsg]⟩

/-- C10 witness: a concrete model with the unrecognised tag "Linear"
fails on a right-hand-side-evaluating integrator. -/
theorem simulate_unknown_policy_fails_witness :
    ∃ msg, mLinear.simulate integCallRhs [1, 2, 3, 4, 5] [1] =
      Except.error msg :=
  (simulate_unknown_policy_fails integCallRhs integCallRhs_propagates mLinear
    (by decide) (by decide) 1 2 3 4 5 [1] (by simp)).2

end WithinHost
